import Mathlib

/-!
Verification of the MCP Streamable HTTP transport, session manager and tool
adapter of the MCP_Driven_UX_Template repository, as a shallow embedding of
`src/mcp_server/transport/session.py`, `src/mcp_server/transport/streamable_http.py`
and the legacy session manager of `src/mcp_server/cloud_mcp_server.py`.

Python dictionaries are embedded as association lists, Python exceptions as
`Except`, wall-clock instants as natural numbers of seconds, and the random
sources (`secrets.choice`, `uuid.uuid4`) as explicit streams of choices.
-/

set_option maxRecDepth 4000

namespace McpModel

/-- A Python/JSON value as it flows through the transport: `null`, booleans,
integers, strings, lists and dicts (association lists, first binding wins). -/
inductive Json where
  | null
  | bool (b : Bool)
  | num (n : Int)
  | str (s : String)
  | arr (elems : List Json)
  | obj (fields : List (String × Json))

/-- First-match lookup in an association list, embedding Python dict access
(dict keys are unique, so first-match agrees with the dict). -/
def lookupStr {α : Type} : List (String × α) → String → Option α
  | [], _ => none
  | (k, v) :: rest, key => if k = key then some v else lookupStr rest key

/-- `d.get(key)` on a dict body: `none` when the key is absent or the value is
not a dict. -/
def Json.get? : Json → String → Option Json
  | .obj fields, k => lookupStr fields k
  | _, _ => none

/-- `key in d`: key presence, regardless of the stored value. -/
def Json.hasKey (j : Json) (k : String) : Bool :=
  (j.get? k).isSome

/-- `d.get(key, default)`. -/
def Json.getD (j : Json) (k : String) (d : Json) : Json :=
  (j.get? k).getD d

/-- Python truthiness of a value: `None`, `False`, `0`, `""`, `[]`, `{}` are
falsy, everything else truthy. -/
def Json.truthy : Json → Bool
  | .null => false
  | .bool b => b
  | .num n => n != 0
  | .str s => s ≠ ""
  | .arr es => !es.isEmpty
  | .obj fs => !fs.isEmpty

/-- Truthiness of an optional value, `none` standing for Python `None`
(an absent `d.get(key)`). -/
def optTruthy : Option Json → Bool
  | none => false
  | some j => j.truthy

mutual

/-- Models Python `repr()` on JSON-shaped values (single-quoted strings,
`None` / `True` / `False`); used by `pyStr` for lists and dicts. -/
def pyRepr : Json → String
  | .null => "None"
  | .bool true => "True"
  | .bool false => "False"
  | .num n => toString n
  | .str s => (Char.ofNat 39).toString ++ s ++ (Char.ofNat 39).toString
  | .arr es => "[" ++ pyReprList es ++ "]"
  | .obj fs => "\x7b" ++ pyReprFields fs ++ "\x7d"

def pyReprList : List Json → String
  | [] => ""
  | [x] => pyRepr x
  | x :: rest => pyRepr x ++ ", " ++ pyReprList rest

def pyReprFields : List (String × Json) → String
  | [] => ""
  | [(k, v)] => pyRepr (Json.str k) ++ ": " ++ pyRepr v
  | (k, v) :: rest => pyRepr (Json.str k) ++ ": " ++ pyRepr v ++ ", " ++ pyReprFields rest

end

/-- Models Python `str()` as used inside f-strings and `str(...)` casts. -/
def pyStr : Json → String
  | .null => "None"
  | .bool true => "True"
  | .bool false => "False"
  | .num n => toString n
  | .str s => s
  | j => pyRepr j

/-- One escaped character of a JSON string literal, as `json.dumps` emits it. -/
def dumpChar (c : Char) : String :=
  if c = Char.ofNat 92 then "\\\\"
  else if c = Char.ofNat 34 then "\\\""
  else if c = Char.ofNat 10 then "\\n"
  else if c = Char.ofNat 9 then "\\t"
  else if c = Char.ofNat 13 then "\\r"
  else c.toString

/-- A JSON string literal with its quotes, as `json.dumps` renders it. -/
def dumpStr (s : String) : String :=
  "\"" ++ String.join (s.toList.map dumpChar) ++ "\""

mutual

/-- Models Python `json.dumps` with its default separators
(`", "` between items, `": "` after keys). -/
def jsonDumps : Json → String
  | .null => "null"
  | .bool true => "true"
  | .bool false => "false"
  | .num n => toString n
  | .str s => dumpStr s
  | .arr es => "[" ++ jsonDumpsList es ++ "]"
  | .obj fs => "\x7b" ++ jsonDumpsFields fs ++ "\x7d"

def jsonDumpsList : List Json → String
  | [] => ""
  | [x] => jsonDumps x
  | x :: rest => jsonDumps x ++ ", " ++ jsonDumpsList rest

def jsonDumpsFields : List (String × Json) → String
  | [] => ""
  | [(k, v)] => dumpStr k ++ ": " ++ jsonDumps v
  | (k, v) :: rest => dumpStr k ++ ": " ++ jsonDumps v ++ ", " ++ jsonDumpsFields rest

end

/-- `needle` occurs as a contiguous run inside the character list. -/
def listContainsSub (needle : List Char) : List Char → Bool
  | [] => decide (needle = [])
  | c :: rest => needle.isPrefixOf (c :: rest) || listContainsSub needle rest

/-- Python's `sub in s` on strings: substring containment. -/
def strContains (s sub : String) : Bool :=
  listContainsSub sub.toList s.toList

/-- Python whitespace stripped by `str.strip()` (ASCII portion). -/
def isPyWs (c : Char) : Bool :=
  c = ' ' || c = Char.ofNat 9 || c = Char.ofNat 10 ||
  c = Char.ofNat 13 || c = Char.ofNat 11 || c = Char.ofNat 12

/-- Truthiness of `s.strip()`: true iff some character of `s` is not whitespace. -/
def stripTruthy (s : String) : Bool :=
  s.toList.any (fun c => !isPyWs c)

/-! ## Session manager (`transport/session.py`) -/

/-- `SessionData` of `session.py`, with instants as seconds.  The
`connection_manager` field (an `SSEConnectionManager`) plays no role in the
session table's logic and is omitted; `state` and `auth_info` are kept as
opaque association lists. -/
structure SessionRec where
  createdAt : Nat
  lastActivity : Nat
  isActive : Bool
  state : List (String × Json)
  authInfo : List (String × String)

/-- The mutable state of a `SessionManager`: the `sessions` dict and the
configured `max_age_minutes` (default 30). -/
structure SMState where
  sessions : List (String × SessionRec)
  maxAgeMinutes : Nat

/-- `string.ascii_lowercase`. -/
def asciiLowercase : String := "abcdefghijklmnopqrstuvwxyz"

/-- `string.ascii_uppercase`. -/
def asciiUppercase : String := "ABCDEFGHIJKLMNOPQRSTUVWXYZ"

/-- `string.digits`. -/
def asciiDigits : String := "0123456789"

/-- `string.punctuation`, given by character codes to keep the source file
free of quoting pitfalls: `!"#$%&'()*+,-./:;<=>?@[\]^_` ... `~`. -/
def punctuationCodes : List Nat :=
  [33, 34, 35, 36, 37, 38, 39, 40, 41, 42, 43, 44, 45, 46, 47,
   58, 59, 60, 61, 62, 63, 64, 91, 92, 93, 94, 95, 96, 123, 124, 125, 126]

def asciiPunctuation : List Char := punctuationCodes.map Char.ofNat

/-- `visible_ascii` of `create_session`: letters, digits and punctuation,
filtered to the codes 0x21..0x7E (the filter is the identity, as in Python). -/
def visibleAscii : List Char :=
  ((asciiLowercase ++ asciiUppercase ++ asciiDigits).toList ++ asciiPunctuation).filter
    (fun c => 0x21 ≤ c.toNat && c.toNat ≤ 0x7E)

/-- One draw of `secrets.choice(visible_ascii)`, the random source embedded as
an arbitrary natural number reduced modulo the alphabet size. -/
def choiceChar (n : Nat) : Char :=
  visibleAscii.getD (n % visibleAscii.length) 'a'

/-- One 32-character candidate ID, from a stream of 32 `secrets.choice` draws. -/
def candidateId (draws : Nat → Nat) : String :=
  String.mk ((List.range 32).map (fun i => choiceChar (draws i)))

/-- The `while session_id in self.sessions` retry loop of `create_session`,
with explicit fuel standing for the (probability-one) termination of the
random retry: tries candidates `k, k+1, ...` and returns the first one not in
the table. -/
def findFreshId (table : List (String × SessionRec)) (cand : Nat → String) :
    Nat → Nat → Option String
  | 0, _ => none
  | fuel + 1, k =>
      if (lookupStr table (cand k)).isSome then findFreshId table cand fuel (k + 1)
      else some (cand k)

/-- `SessionManager.create_session`: draws a fresh 32-character visible-ASCII
ID (retrying on collision) and inserts a new active record with `created_at`
and `last_activity` set to now.  `choices k` is attempt `k`'s stream of
`secrets.choice` draws; `none` models the retry loop never finding a free ID
within `fuel` attempts. -/
def createSession (st : SMState) (choices : Nat → Nat → Nat) (now : Nat)
    (authInfo : List (String × String)) (fuel : Nat) : Option (String × SMState) :=
  match findFreshId st.sessions (fun k => candidateId (choices k)) fuel 0 with
  | none => none
  | some sid =>
      some (sid,
        { st with sessions :=
            (sid, { createdAt := now, lastActivity := now, isActive := true,
                    state := [], authInfo := authInfo }) :: st.sessions })

/-- Removal of a key from the session table (`del self.sessions[session_id]`).
The preceding `session.is_active = False` mutates the record being deleted and
leaves no trace in the table. -/
def eraseSession (table : List (String × SessionRec)) (sid : String) :
    List (String × SessionRec) :=
  table.filter (fun p => p.1 ≠ sid)

/-- `SessionManager.validate_session`: false when unknown; when the creation
age exceeds `max_age_minutes * 60` seconds, marks the record inactive, removes
it and returns false; otherwise returns the record's active flag.  Returns the
result together with the manager state after the call. -/
def validateSession (st : SMState) (now : Nat) (sid : String) : Bool × SMState :=
  match lookupStr st.sessions sid with
  | none => (false, st)
  | some s =>
      if now - s.createdAt > st.maxAgeMinutes * 60 then
        (false, { st with sessions := eraseSession st.sessions sid })
      else
        (s.isActive, st)

/-- `SessionManager.update_session_activity`: sets `last_activity` to now when
the session is known. -/
def updateActivity (st : SMState) (now : Nat) (sid : String) : SMState :=
  { st with sessions :=
      st.sessions.map (fun p => if p.1 = sid then (p.1, { p.2 with lastActivity := now }) else p) }

/-! ## Legacy session manager (`cloud_mcp_server.py`) -/

/-- The lowercase hex digit for a nibble. -/
def hexChar (n : Nat) : Char :=
  "0123456789abcdef".toList.getD (n % 16) '0'

/-- The hex digit at position `i` of a version-4 UUID: position 12 is the
version nibble `4`, position 16 the variant nibble in `8..b`, the rest random. -/
def uuid4Digit (draws : Nat → Nat) (i : Nat) : Char :=
  if i = 12 then '4'
  else if i = 16 then "89ab".toList.getD (draws i % 4) '8'
  else hexChar (draws i)

/-- `str(uuid.uuid4())` as used by `MCPSessionManager.create_session`: the
canonical 8-4-4-4-12 textual form over 32 hex digits, embedded over a stream
of random nibble draws (the `uuid` library is outside the repository; the
textual shape is what the claims consume). -/
def uuid4String (draws : Nat → Nat) : String :=
  String.mk
    (((List.range 8).map (uuid4Digit draws)) ++ '-' ::
     ((List.range 4).map (fun i => uuid4Digit draws (8 + i))) ++ '-' ::
     ((List.range 4).map (fun i => uuid4Digit draws (12 + i))) ++ '-' ::
     ((List.range 4).map (fun i => uuid4Digit draws (16 + i))) ++ '-' ::
     ((List.range 12).map (fun i => uuid4Digit draws (20 + i))))

/-! ## Tool adapter (`streamable_http.py`, search / fetch) -/

/-- The value returned (or the exception propagated) by a backend tool call
such as `get_ticket_list` / `get_ticket_detail`. -/
inductive RawResult where
  | raises
  | pyNone
  | pyStr (s : String)
  | pyVal (j : Json)

/-- Python truthiness of a raw backend result (`if not raw_result:`). -/
def rawTruthy : RawResult → Bool
  | .raises => false
  | .pyNone => false
  | .pyStr s => s ≠ ""
  | .pyVal j => j.truthy

/-- `" | ".join` / `"\n".join` argument check: every element must be a `str`,
otherwise the join raises `TypeError`. -/
def asPyStrs : List Json → Except Unit (List String)
  | [] => .ok []
  | .str s :: rest => (asPyStrs rest).map (s :: ·)
  | _ :: _ => .error ()

/-- The `text_parts` a `{tickets:[...]}`-shaped search ticket accumulates:
the raw `description` when truthy, then `Status:` / `Category:` / `Account:`
f-strings for the truthy name fields. -/
def dictTextParts (fields : List (String × Json)) : List Json :=
  (if optTruthy (lookupStr fields "description") then
    [(lookupStr fields "description").getD Json.null] else []) ++
  (if optTruthy (lookupStr fields "status_name") then
    [Json.str ("Status: " ++ pyStr ((lookupStr fields "status_name").getD Json.null))] else []) ++
  (if optTruthy (lookupStr fields "category_name") then
    [Json.str ("Category: " ++ pyStr ((lookupStr fields "category_name").getD Json.null))] else []) ++
  (if optTruthy (lookupStr fields "account_name") then
    [Json.str ("Account: " ++ pyStr ((lookupStr fields "account_name").getD Json.null))] else [])

/-- `summary_text = " | ".join(text_parts) if text_parts else ticket.get("title", "")`
for the dict shape; the join raises when a truthy `description` is not a string. -/
def dictSummaryText (fields : List (String × Json)) : Except Unit Json :=
  let parts := dictTextParts fields
  if parts.isEmpty then .ok ((lookupStr fields "title").getD (Json.str ""))
  else (asPyStrs parts).map (fun ss => Json.str (String.intercalate " | " ss))

/-- One entry appended to `results`: stringified `id`, raw `title`, the
computed `text`, and `url: None`. -/
def searchEntry (fields : List (String × Json)) (text : Json) : Json :=
  Json.obj [("id", Json.str (pyStr ((lookupStr fields "id").getD (Json.str "")))),
            ("title", (lookupStr fields "title").getD (Json.str "")),
            ("text", text),
            ("url", Json.null)]

/-- Conversion of one element of `ticket_data["tickets"]`; `.get` on a
non-dict element raises `AttributeError`. -/
def convertDictTicket (t : Json) : Except Unit Json :=
  match t with
  | .obj fields => (dictSummaryText fields).map (searchEntry fields)
  | _ => .error ()

/-- `for ticket in ticket_data["tickets"]`: lists iterate their elements; a
string iterates its characters and a dict its keys, whose `.get` raises unless
the iteration is empty; other values are not iterable. -/
def iterDictTickets (tickets : Json) : Except Unit (List Json) :=
  match tickets with
  | .arr ts => ts.mapM convertDictTicket
  | .str s => if s = "" then .ok [] else .error ()
  | .obj fs => if fs.isEmpty then .ok [] else .error ()
  | _ => .error ()

/-- `text_parts` for a top-level-list ticket: only `description` and
`Status: ...` are collected in this branch of the source. -/
def listTextParts (fields : List (String × Json)) : List Json :=
  (if optTruthy (lookupStr fields "description") then
    [(lookupStr fields "description").getD Json.null] else []) ++
  (if optTruthy (lookupStr fields "status_name") then
    [Json.str ("Status: " ++ pyStr ((lookupStr fields "status_name").getD Json.null))] else [])

/-- `summary_text` for the top-level-list shape. -/
def listSummaryText (fields : List (String × Json)) : Except Unit Json :=
  let parts := listTextParts fields
  if parts.isEmpty then .ok ((lookupStr fields "title").getD (Json.str ""))
  else (asPyStrs parts).map (fun ss => Json.str (String.intercalate " | " ss))

/-- The top-level-list loop: non-dict elements are skipped by the
`isinstance(ticket, dict)` guard. -/
def convertListTickets : List Json → Except Unit (List Json)
  | [] => .ok []
  | .obj fields :: rest => do
      let text ← listSummaryText fields
      let restEntries ← convertListTickets rest
      .ok (searchEntry fields text :: restEntries)
  | _ :: rest => convertListTickets rest

/-- Shape dispatch of `_execute_search_tool` on the parsed `ticket_data`:
a dict carrying `tickets`, a top-level list, or anything else (which yields
no results). -/
def convertTicketData (td : Json) : Except Unit (List Json) :=
  match td with
  | .obj fields =>
      if (lookupStr fields "tickets").isSome then
        iterDictTickets ((lookupStr fields "tickets").getD Json.null)
      else .ok []
  | .arr ts => convertListTickets ts
  | _ => .ok []

/-- `{"results": rs}`. -/
def mkResults (rs : List Json) : Json :=
  Json.obj [("results", Json.arr rs)]

/-- The body of `_execute_search_tool`'s `try` block, given the raw backend
result and `json.loads` embedded as `parse` (`none` = `JSONDecodeError`). -/
def searchInner (parse : String → Option Json) (raw : RawResult) : Except Unit Json :=
  match raw with
  | .raises => .error ()
  | .pyNone => .ok (mkResults [])
  | .pyStr s =>
      if s = "" then .ok (mkResults [])
      else if stripTruthy s then
        match parse s with
        | none => .ok (mkResults [])
        | some td => (convertTicketData td).map mkResults
      else .ok (mkResults [])
  | .pyVal j =>
      if !j.truthy then .ok (mkResults [])
      else (convertTicketData j).map mkResults

/-- The Python type name of a value, as it appears in exception messages. -/
def pyTypeName : Json → String
  | .null => "NoneType"
  | .bool _ => "bool"
  | .num _ => "int"
  | .str _ => "str"
  | .arr _ => "list"
  | .obj _ => "dict"

/-- `str()` of the `AttributeError` raised by `x.get(...)` when `x` is not a
dict. -/
def noGetMsg (j : Json) : String :=
  let q := (Char.ofNat 39).toString
  q ++ pyTypeName j ++ q ++ " object has no attribute " ++ q ++ "get" ++ q

/-- `_execute_search_tool`: `arguments.get("query", "")` runs first and, like
the tools-instance `RuntimeError` guard, sits outside the `try` — on non-dict
`arguments` it raises `AttributeError`, which escapes the tool.  Failures
inside the `try` become `{"results": []}`. -/
def executeSearchTool (toolsPresent : Bool) (parse : String → Option Json)
    (searchBackend : Json → RawResult) (args : Json) : Except String Json :=
  match args with
  | Json.obj _ =>
      let query := (args.get? "query").getD (Json.str "")
      if !toolsPresent then .error "Tools instance not available"
      else
        match searchInner parse (searchBackend query) with
        | .ok v => .ok v
        | .error _ => .ok (mkResults [])
  | _ => .error (noGetMsg args)

/-- The history lines of `_execute_fetch_tool`: non-dict items are skipped by
the `isinstance` guard; iterating a string or dict yields skipped items; a
truthy number or boolean is not iterable and raises. -/
def historyLines : Json → Except Unit (List String)
  | .arr items =>
      .ok (items.filterMap (fun it =>
        match it with
        | .obj f =>
            some ("- " ++ pyStr ((lookupStr f "created_at").getD (Json.str "")) ++ ": " ++
              pyStr ((lookupStr f "content").getD (Json.str "")) ++ " (by " ++
              pyStr ((lookupStr f "user_name").getD (Json.str "")) ++ ")")
        | _ => none))
  | .str _ => .ok []
  | .obj _ => .ok []
  | _ => .error ()

/-- The seven metadata keys collected by `_execute_fetch_tool`. -/
def metadataKeys : List String :=
  ["status_name", "category_name", "account_name", "person_in_charge_name",
   "priority", "created_at", "updated_at"]

/-- `metadata[key] = str(ticket_data[key])` for each truthy metadata key. -/
def fetchMetadata (fields : List (String × Json)) : List (String × Json) :=
  metadataKeys.filterMap (fun k =>
    match lookupStr fields k with
    | some v => if v.truthy then some (k, Json.str (pyStr v)) else none
    | none => none)

/-- The Deep-Research conversion of `_execute_fetch_tool` on a parsed dict;
a non-dict payload raises (`ValueError: Invalid ticket data format`). -/
def fetchConvert (td : Json) (tid : Json) : Except Unit Json :=
  match td with
  | .obj fields => do
      let descParts : List String :=
        if optTruthy (lookupStr fields "description") then
          ["Description: " ++ pyStr ((lookupStr fields "description").getD Json.null)]
        else []
      let histParts ←
        if optTruthy (lookupStr fields "history") then do
          let lines ← historyLines ((lookupStr fields "history").getD Json.null)
          Except.ok ("\nHistory:" :: lines)
        else Except.ok []
      let parts := descParts ++ histParts
      let completeText :=
        if parts.isEmpty then "No description available"
        else String.intercalate "\n" parts
      let md := fetchMetadata fields
      .ok (Json.obj [("id", Json.str (pyStr ((lookupStr fields "id").getD tid))),
                     ("title", (lookupStr fields "title").getD (Json.str "No title")),
                     ("text", Json.str completeText),
                     ("url", Json.null),
                     ("metadata", if md.isEmpty then Json.null else Json.obj md)])
  | _ => .error ()

/-- The body of `_execute_fetch_tool`'s `try` block: empty, unparseable or
non-dict backend results raise. -/
def fetchInner (parse : String → Option Json) (raw : RawResult) (tid : Json) :
    Except Unit Json :=
  match raw with
  | .raises => .error ()
  | .pyNone => .error ()
  | .pyStr s =>
      if s = "" then .error ()
      else if stripTruthy s then
        match parse s with
        | none => .error ()
        | some td => fetchConvert td tid
      else .error ()
  | .pyVal j =>
      if !j.truthy then .error ()
      else fetchConvert j tid

/-- `_execute_fetch_tool`: `arguments.get("id", "")` sits outside the `try`
and raises `AttributeError` on non-dict `arguments`; any failure inside the
`try` is re-raised as `ValueError(f"Failed to fetch ticket: <id>")`. -/
def executeFetchTool (toolsPresent : Bool) (parse : String → Option Json)
    (fetchBackend : Json → RawResult) (args : Json) : Except String Json :=
  match args with
  | Json.obj _ =>
      let tid := (args.get? "id").getD (Json.str "")
      if !toolsPresent then .error "Tools instance not available"
      else
        match fetchInner parse (fetchBackend tid) tid with
        | .ok v => .ok v
        | .error _ => .error ("Failed to fetch ticket: " ++ pyStr tid)
  | _ => .error (noGetMsg args)

/-- A legacy `MCPSession` record (queue and timestamps elided to what the
claims consume). -/
structure LegacySessionRec where
  authToken : String
  isActive : Bool

/-- `MCPSessionManager.create_session` of `cloud_mcp_server.py`: mints
`str(uuid.uuid4())`, stores the record, returns the ID.  This is the session
creation used by the `GET /sse` Bearer path (`connect_sse_unified`). -/
def legacyCreateSession (table : List (String × LegacySessionRec))
    (draws : Nat → Nat) (authToken : String) :
    String × List (String × LegacySessionRec) :=
  let sid := uuid4String draws
  (sid, (sid, { authToken := authToken, isActive := true }) :: table)

/-! ## JSON-RPC dispatcher (`_process_message` and method handlers) -/

/-- A JSON-RPC error response, with the optional `data` field carrying
`str(e)`. -/
def errorResponse (mid : Json) (code : Int) (msg : String) (data : Option String) : Json :=
  Json.obj [("jsonrpc", Json.str "2.0"), ("id", mid),
    ("error", Json.obj ([("code", Json.num code), ("message", Json.str msg)] ++
      (match data with
       | some d => [("data", Json.str d)]
       | none => [])))]

/-- `_handle_method_initialize`'s response. -/
def initializeResponse (mid : Json) : Json :=
  Json.obj [("jsonrpc", Json.str "2.0"), ("id", mid),
    ("result", Json.obj
      [("protocolVersion", Json.str "2025-03-26"),
       ("serverName", Json.str "MCP Ticket Server"),
       ("serverVersion", Json.str "1.0.0"),
       ("capabilities", Json.obj
         [("tools", Json.obj []), ("resources", Json.obj []),
          ("prompts", Json.obj []), ("logging", Json.obj [])])])]

/-- The `search` tool advertisement of `_handle_method_tools_list`. -/
def searchToolSchema : Json :=
  Json.obj [("name", Json.str "search"),
    ("description", Json.str "Searches for resources using the provided query string and returns matching results."),
    ("inputSchema", Json.obj
      [("type", Json.str "object"),
       ("properties", Json.obj
         [("query", Json.obj [("type", Json.str "string"), ("description", Json.str "Search query.")])]),
       ("required", Json.arr [Json.str "query"])])]

/-- The `fetch` tool advertisement of `_handle_method_tools_list`. -/
def fetchToolSchema : Json :=
  Json.obj [("name", Json.str "fetch"),
    ("description", Json.str "Retrieves detailed content for a specific resource identified by the given ID."),
    ("inputSchema", Json.obj
      [("type", Json.str "object"),
       ("properties", Json.obj
         [("id", Json.obj [("type", Json.str "string"), ("description", Json.str "ID of the resource to fetch.")])]),
       ("required", Json.arr [Json.str "id"])])]

/-- `_handle_method_tools_list`'s response. -/
def toolsListResponse (mid : Json) : Json :=
  Json.obj [("jsonrpc", Json.str "2.0"), ("id", mid),
    ("result", Json.obj [("tools", Json.arr [searchToolSchema, fetchToolSchema])])]

/-- A successful `tools/call` response: the tool result JSON-stringified into
a single text content block. -/
def toolCallResponse (mid : Json) (result : Json) : Json :=
  Json.obj [("jsonrpc", Json.str "2.0"), ("id", mid),
    ("result", Json.obj
      [("content", Json.arr
        [Json.obj [("type", Json.str "text"), ("text", Json.str (jsonDumps result))]])])]

/-- `_handle_method_tools_call`: dispatch on the tool name; an unknown name
raises `ValueError(f"Unknown tool: <name>")`. -/
def handleMethodToolsCall (toolsPresent : Bool) (parse : String → Option Json)
    (searchBackend fetchBackend : Json → RawResult) (mid : Json) (params : Json) :
    Except String Json :=
  let toolName := (params.get? "name").getD Json.null
  let args := (params.get? "arguments").getD (Json.obj [])
  if !toolsPresent then .error "Tools instance not available"
  else
    match toolName with
    | Json.str s =>
        if s = "search" then
          (executeSearchTool toolsPresent parse searchBackend args).map (toolCallResponse mid)
        else if s = "fetch" then
          (executeFetchTool toolsPresent parse fetchBackend args).map (toolCallResponse mid)
        else .error ("Unknown tool: " ++ pyStr toolName)
    | _ => .error ("Unknown tool: " ++ pyStr toolName)

/-- `_handle_method_ping`'s response, with `datetime.now().isoformat()`
embedded as the `nowIso` parameter. -/
def pingResponse (mid : Json) (nowIso : String) : Json :=
  Json.obj [("jsonrpc", Json.str "2.0"), ("id", mid),
    ("result", Json.obj [("status", Json.str "pong"), ("timestamp", Json.str nowIso)])]

/-- `_process_message`: method dispatch with the blanket `except` converting a
handler exception into a `-32603` error whose `message` is `"Internal error"`
and whose `data` is `str(e)`. -/
def processMessage (toolsPresent : Bool) (parse : String → Option Json)
    (searchBackend fetchBackend : Json → RawResult) (nowIso : String)
    (body : Json) (_sessionId : String) : Json :=
  let method := (body.get? "method").getD Json.null
  let params := (body.get? "params").getD (Json.obj [])
  let mid := (body.get? "id").getD Json.null
  match method with
  | Json.str m =>
      if m = "initialize" then initializeResponse mid
      else if m = "tools/list" then toolsListResponse mid
      else if m = "tools/call" then
        match handleMethodToolsCall toolsPresent parse searchBackend fetchBackend mid params with
        | .ok resp => resp
        | .error e => errorResponse mid (-32603) "Internal error" (some e)
      else if m = "ping" then pingResponse mid nowIso
      else errorResponse mid (-32601) ("Method not found: " ++ pyStr method) none
  | _ => errorResponse mid (-32601) ("Method not found: " ++ pyStr method) none

/-! ## Message classification and the POST handler -/

/-- `_get_message_type`: `"invalid"` unless the body is a dict whose
`jsonrpc` field equals the string `"2.0"`; then classification by presence
of `method` / `id` / `result` / `error`. -/
def getMessageType (body : Json) : String :=
  match body with
  | Json.obj _ =>
      let rpcOk :=
        match body.get? "jsonrpc" with
        | some (Json.str s) => s = "2.0"
        | _ => false
      if !rpcOk then "invalid"
      else
        let hasId := body.hasKey "id"
        let hasMethod := body.hasKey "method"
        let hasResultOrError := body.hasKey "result" || body.hasKey "error"
        if hasMethod && hasId then "request"
        else if hasMethod && !hasId then "notification"
        else if hasResultOrError && hasId then "response"
        else "invalid"
  | _ => "invalid"

/-- `_is_initialize_request`: `body.get("method") == "initialize"`. -/
def isInitializeRequest (body : Json) : Bool :=
  match body.get? "method" with
  | some (Json.str s) => s = "initialize"
  | _ => false

/-- What the POST handler hands back to FastAPI: the status code, the JSON
content (`none` embeds `content=None`, the empty 202 body) and the
`Mcp-Session-Id` response header when one is set. -/
structure HttpResponse where
  status : Nat
  content : Option Json
  sessionHeader : Option String

/-- The 400 response when the `Accept` header lacks one of the two required
media types. -/
def acceptRejection : HttpResponse :=
  { status := 400,
    content := some (Json.obj [("jsonrpc", Json.str "2.0"), ("id", Json.null),
      ("error", Json.obj [("code", Json.num (-32600)),
        ("message", Json.str "Invalid Accept header. Must include both application/json and text/event-stream")])]),
    sessionHeader := none }

/-- The 400 response for a body that fails to parse as JSON. -/
def parseErrorResponse (e : String) : HttpResponse :=
  { status := 400,
    content := some (Json.obj [("jsonrpc", Json.str "2.0"), ("id", Json.null),
      ("error", Json.obj [("code", Json.num (-32700)),
        ("message", Json.str "Parse error"), ("data", Json.str e)])]),
    sessionHeader := none }

/-- The 400 response for a batch (JSON array) body. -/
def batchRejection : HttpResponse :=
  { status := 400,
    content := some (Json.obj [("jsonrpc", Json.str "2.0"), ("id", Json.null),
      ("error", Json.obj [("code", Json.num (-32600)),
        ("message", Json.str "Batch requests not supported. Body must be single JSON-RPC message.")])]),
    sessionHeader := none }

/-- The 400 response for a notification/response POST without a session header. -/
def missingSessionNR : HttpResponse :=
  { status := 400,
    content := some (Json.obj [("jsonrpc", Json.str "2.0"),
      ("error", Json.obj [("code", Json.num (-32000)),
        ("message", Json.str "Missing Mcp-Session-Id header for notification/response")])]),
    sessionHeader := none }

/-- The 404 response for a notification/response POST with an invalid session. -/
def invalidSessionNR : HttpResponse :=
  { status := 404,
    content := some (Json.obj [("jsonrpc", Json.str "2.0"),
      ("error", Json.obj [("code", Json.num (-32000)),
        ("message", Json.str "Invalid session ID")])]),
    sessionHeader := none }

/-- The 400 response for a request POST without a session header. -/
def missingSessionReq (mid : Json) : HttpResponse :=
  { status := 400,
    content := some (Json.obj [("jsonrpc", Json.str "2.0"), ("id", mid),
      ("error", Json.obj [("code", Json.num (-32000)),
        ("message", Json.str "Missing Mcp-Session-Id header")])]),
    sessionHeader := none }

/-- The 404 response for a request POST with an invalid session. -/
def invalidSessionReq (mid : Json) : HttpResponse :=
  { status := 404,
    content := some (Json.obj [("jsonrpc", Json.str "2.0"), ("id", mid),
      ("error", Json.obj [("code", Json.num (-32000)),
        ("message", Json.str "Invalid session ID")])]),
    sessionHeader := none }

/-- The 400 response for a dict body of invalid JSON-RPC shape. -/
def invalidFormatResponse (mid : Json) : HttpResponse :=
  { status := 400,
    content := some (Json.obj [("jsonrpc", Json.str "2.0"), ("id", mid),
      ("error", Json.obj [("code", Json.num (-32600)),
        ("message", Json.str "Invalid JSON-RPC message format")])]),
    sessionHeader := none }

/-- Outcome of `_handle_post_request`: either a response handed to FastAPI,
or an exception escaping to `handle_request`'s blanket 500 handler (reachable
only for a non-dict scalar body of invalid type, whose `body.get("id")`
raises). -/
inductive PostOutcome where
  | resp (r : HttpResponse) (st : SMState)
  | raised (st : SMState)

/-- `_handle_post_request`, for an already-received request: `accept` is the
`Accept` header, `authHeader` the optional `Authorization` header,
`sessionHeader` the optional `Mcp-Session-Id` header, `bodyResult` the outcome
of `request.json()`, and `process` stands for `self._process_message`.  The
source's four sequential `if` blocks (initialize, notification/response,
request, fallback) are nested by message type, which fires the same branch on
every input.  `none` embeds nontermination of `create_session`'s retry loop
(fuel exhaustion). -/
def handlePost (process : Json → String → Json) (choices : Nat → Nat → Nat) (fuel : Nat)
    (now : Nat) (accept : String) (authHeader : Option String) (sessionHeader : Option String)
    (bodyResult : Except String Json) (st : SMState) : Option PostOutcome :=
  if !(strContains accept "application/json" && strContains accept "text/event-stream") then
    some (.resp acceptRejection st)
  else
    match bodyResult with
    | .error e => some (.resp (parseErrorResponse e) st)
    | .ok body =>
      match body with
      | Json.arr _ => some (.resp batchRejection st)
      | _ =>
        let mt := getMessageType body
        if mt = "request" then
          if isInitializeRequest body then
            let authInfo :=
              match authHeader with
              | some a => [("authorization", a)]
              | none => []
            match createSession st choices now authInfo fuel with
            | none => none
            | some (sid, st₁) =>
                let result := process body sid
                some (.resp { status := 200, content := some result, sessionHeader := some sid } st₁)
          else
            match sessionHeader with
            | none => some (.resp (missingSessionReq (body.getD "id" Json.null)) st)
            | some sid =>
                if sid = "" then some (.resp (missingSessionReq (body.getD "id" Json.null)) st)
                else
                  let v := validateSession st now sid
                  if !v.1 then some (.resp (invalidSessionReq (body.getD "id" Json.null)) v.2)
                  else
                    let result := process body sid
                    let st₂ := updateActivity v.2 now sid
                    some (.resp { status := 200, content := some result, sessionHeader := some sid } st₂)
        else if mt = "notification" || mt = "response" then
          match sessionHeader with
          | none => some (.resp missingSessionNR st)
          | some sid =>
              if sid = "" then some (.resp missingSessionNR st)
              else
                let v := validateSession st now sid
                if !v.1 then some (.resp invalidSessionNR v.2)
                else
                  let st₂ := updateActivity v.2 now sid
                  let st₃ := updateActivity st₂ now sid
                  some (.resp { status := 202, content := none, sessionHeader := some sid } st₃)
        else
          match body with
          | Json.obj _ => some (.resp (invalidFormatResponse (body.getD "id" Json.null)) st)
          | _ => some (.raised st)

/-! ## Specification-side definitions

Definitions in this block follow the spec's words and exist to be compared
with the source-side definitions above. -/

/-- The spec's validity predicate for a session (data-model invariant of §3):
active flag, creation age within `max_age`, and last-activity age within
`max_age`. -/
def specSessionValid (st : SMState) (now : Nat) (sid : String) : Bool :=
  match lookupStr st.sessions sid with
  | none => false
  | some s =>
      s.isActive && decide (now - s.createdAt ≤ st.maxAgeMinutes * 60) &&
        decide (now - s.lastActivity ≤ st.maxAgeMinutes * 60)

/-- Purely syntactic message classification as the claim states it: field
presence only, no other condition. -/
def specMessageTypeSyntactic (body : Json) : String :=
  if body.hasKey "method" && body.hasKey "id" then "request"
  else if body.hasKey "method" then "notification"
  else if (body.hasKey "result" || body.hasKey "error") && body.hasKey "id" then "response"
  else "invalid"

/-- `jsonrpc` field equal to the string `"2.0"`. -/
def jsonrpcIs20 (body : Json) : Bool :=
  match body.get? "jsonrpc" with
  | some (Json.str s) => s = "2.0"
  | _ => false

/-- A raw text part as the spec words it: the field's string when present and
non-empty. -/
def specRawSeg (o : Option Json) : List String :=
  match o with
  | some (Json.str s) => if s = "" then [] else [s]
  | _ => []

/-- A prefixed text part as the spec words it: `pre ++ s` when the field is a
present, non-empty string. -/
def specPreSeg (pre : String) (o : Option Json) : List String :=
  match o with
  | some (Json.str s) => if s = "" then [] else [pre ++ s]
  | _ => []

/-- The claim's text parts for a search ticket: the non-empty entries among
`description`, `Status: <status_name>`, `Category: <category_name>`,
`Account: <account_name>`. -/
def specDictText (fields : List (String × Json)) : List String :=
  specRawSeg (lookupStr fields "description") ++
  specPreSeg "Status: " (lookupStr fields "status_name") ++
  specPreSeg "Category: " (lookupStr fields "category_name") ++
  specPreSeg "Account: " (lookupStr fields "account_name")

/-- The text parts the source actually joins for a top-level-list ticket:
only `description` and `Status: <status_name>`. -/
def specListText (fields : List (String × Json)) : List String :=
  specRawSeg (lookupStr fields "description") ++
  specPreSeg "Status: " (lookupStr fields "status_name")

/-- The `text` value the claim's join yields, with the source's fallback to
the raw title when every part is empty. -/
def specTextOf (parts : List String) (fields : List (String × Json)) : Json :=
  if parts.isEmpty then (lookupStr fields "title").getD (Json.str "")
  else Json.str (String.intercalate " | " parts)

/-- The search-result entry the claim predicts for a dict-shape ticket. -/
def specDictEntry (t : Json) : Json :=
  match t with
  | Json.obj fields => searchEntry fields (specTextOf (specDictText fields) fields)
  | other => other

/-- The search-result entry the source yields for a top-level-list ticket. -/
def specListEntry (t : Json) : Json :=
  match t with
  | Json.obj fields => searchEntry fields (specTextOf (specListText fields) fields)
  | other => other

/-- The field at `k` is absent or a string (the shape the claims range over). -/
def strOrAbsent (fields : List (String × Json)) (k : String) : Prop :=
  ∀ v, lookupStr fields k = some v → ∃ s, v = Json.str s

/-- The field at `k` is absent or the empty string. -/
def emptyOrAbsent (fields : List (String × Json)) (k : String) : Prop :=
  lookupStr fields k = none ∨ lookupStr fields k = some (Json.str "")

/-- `query` argument extraction of `_execute_search_tool`. -/
def queryArg (args : Json) : Json :=
  (args.get? "query").getD (Json.str "")

/-- `id` argument extraction of `_execute_fetch_tool`. -/
def idArg (args : Json) : Json :=
  (args.get? "id").getD (Json.str "")

/-- The `error.message` field of a response's JSON content, when present. -/
def errMessage (r : HttpResponse) : Option Json :=
  (r.content.bind (fun c => c.get? "error")).bind (fun e => e.get? "message")

/-- A `tools/call` request body invoking `fetch` on the given ticket id. -/
def fetchCallBody (mid : Json) (tid : Json) : Json :=
  Json.obj [("jsonrpc", Json.str "2.0"), ("id", mid), ("method", Json.str "tools/call"),
    ("params", Json.obj [("name", Json.str "fetch"),
      ("arguments", Json.obj [("id", tid)])])]

/-! ## Helper lemmas -/

theorem lookupStr_eq_none_iff {α : Type} (l : List (String × α)) (k : String) :
    lookupStr l k = none ↔ ∀ p ∈ l, p.1 ≠ k := by
  induction l with
  | nil => simp [lookupStr]
  | cons p rest ih =>
      by_cases hp : p.1 = k <;> simp [lookupStr, hp, ih]

theorem lookup_eraseSession (tbl : List (String × SessionRec)) (sid : String) :
    lookupStr (eraseSession tbl sid) sid = none := by
  rw [lookupStr_eq_none_iff]
  intro p hp
  have := List.of_mem_filter hp
  simpa using this

theorem asPyStrs_map_str (l : List String) :
    asPyStrs (l.map Json.str) = Except.ok l := by
  induction l with
  | nil => rfl
  | cons s rest ih => simp [asPyStrs, ih, Except.map]

theorem mapM_ok_of_forall (ts : List Json) (f : Json → Except Unit Json) (g : Json → Json)
    (h : ∀ t ∈ ts, f t = Except.ok (g t)) :
    ts.mapM f = Except.ok (ts.map g) := by
  induction ts with
  | nil => rfl
  | cons t rest ih =>
      rw [List.mapM_cons, h t (by simp)]
      rw [ih (fun x hx => h x (by simp [hx]))]
      rfl

theorem findFreshId_fresh (table : List (String × SessionRec)) (cand : Nat → String) :
    ∀ fuel k sid, findFreshId table cand fuel k = some sid →
      (∃ j, sid = cand j) ∧ lookupStr table sid = none := by
  intro fuel
  induction fuel with
  | zero => intro k sid h; simp [findFreshId] at h
  | succ n ih =>
      intro k sid h
      rw [findFreshId] at h
      by_cases hc : (lookupStr table (cand k)).isSome
      · rw [if_pos hc] at h; exact ih (k + 1) sid h
      · rw [if_neg hc] at h
        cases h
        refine ⟨⟨k, rfl⟩, ?_⟩
        cases hl : lookupStr table (cand k) with
        | none => rfl
        | some v => rw [hl] at hc; simp at hc

theorem choiceChar_mem (n : Nat) : choiceChar n ∈ visibleAscii := by
  have hlen : visibleAscii.length = 94 := by decide
  have hlt : n % visibleAscii.length < visibleAscii.length := by
    rw [hlen]; exact Nat.mod_lt _ (by norm_num)
  unfold choiceChar
  rw [List.getD_eq_getElem _ _ hlt]
  exact List.getElem_mem _

theorem visibleAscii_range : ∀ c ∈ visibleAscii, 0x21 ≤ c.toNat ∧ c.toNat ≤ 0x7E := by
  decide

theorem candidateId_length (draws : Nat → Nat) : (candidateId draws).length = 32 := by
  simp [candidateId, String.length]

theorem candidateId_chars (draws : Nat → Nat) :
    ∀ c ∈ (candidateId draws).toList, 0x21 ≤ c.toNat ∧ c.toNat ≤ 0x7E := by
  intro c hc
  have : c ∈ (List.range 32).map (fun i => choiceChar (draws i)) := hc
  obtain ⟨i, _, rfl⟩ := List.mem_map.mp this
  exact visibleAscii_range _ (choiceChar_mem _)

/-! ## Claim theorems -/

/-- C10: every session id the legacy `MCPSessionManager.create_session`
produces is a 36-character UUID string containing hyphens, so it never meets
the 32-character format of the Streamable HTTP session manager. -/
theorem c10_legacy_session_id_shape (table : List (String × LegacySessionRec))
    (draws : Nat → Nat) (tok : String) :
    ((legacyCreateSession table draws tok).1).length = 36 ∧
    '-' ∈ ((legacyCreateSession table draws tok).1).toList ∧
    ((legacyCreateSession table draws tok).1).length ≠ 32 := by
  refine ⟨?_, ?_, ?_⟩
  · simp [legacyCreateSession, uuid4String, String.length]
  · simp [legacyCreateSession, uuid4String, String.toList]
  · simp [legacyCreateSession, uuid4String, String.length]

/-- C6: every session id minted by `SessionManager.create_session` is exactly
32 characters of visible ASCII (0x21..0x7E) and differs from every id in the
session table at the moment of creation. -/
theorem c6_create_session_id (st : SMState) (choices : Nat → Nat → Nat) (now : Nat)
    (authInfo : List (String × String)) (fuel : Nat) (sid : String) (st' : SMState)
    (h : createSession st choices now authInfo fuel = some (sid, st')) :
    sid.length = 32 ∧
    (∀ c ∈ sid.toList, 0x21 ≤ c.toNat ∧ c.toNat ≤ 0x7E) ∧
    ∀ p ∈ st.sessions, p.1 ≠ sid := by
  unfold createSession at h
  cases hf : findFreshId st.sessions (fun k => candidateId (choices k)) fuel 0 with
  | none => rw [hf] at h; cases h
  | some s =>
      rw [hf] at h
      have hs : s = sid := by cases h; rfl
      subst hs
      obtain ⟨⟨j, hj⟩, hnone⟩ := findFreshId_fresh st.sessions _ fuel 0 s hf
      subst hj
      exact ⟨candidateId_length _, candidateId_chars _,
        (lookupStr_eq_none_iff _ _).mp hnone⟩

/-- Witness for C6 at a concrete manager state and draw stream. -/
theorem c6_create_session_id_witness :
    (candidateId (fun _ => 0)).length = 32 ∧
    (∀ c ∈ (candidateId (fun _ => 0)).toList, 0x21 ≤ c.toNat ∧ c.toNat ≤ 0x7E) ∧
    ∀ p ∈ (⟨[], 30⟩ : SMState).sessions, p.1 ≠ candidateId (fun _ => 0) :=
  c6_create_session_id ⟨[], 30⟩ (fun _ _ => 0) 0 [] 1 (candidateId (fun _ => 0)) _ rfl

/-- C5 fails as stated: a body carrying `method` and `id` but no
`jsonrpc: "2.0"` field classifies as `"invalid"`, not `"request"`; the
classification is not purely syntactic on `method`/`id`/`result`/`error`
presence. -/
theorem c5_counterexample :
    getMessageType (Json.obj [("method", Json.str "ping"), ("id", Json.num 1)]) = "invalid" ∧
    specMessageTypeSyntactic (Json.obj [("method", Json.str "ping"), ("id", Json.num 1)]) = "request" ∧
    getMessageType (Json.obj [("method", Json.str "ping"), ("id", Json.num 1)]) ≠
      specMessageTypeSyntactic (Json.obj [("method", Json.str "ping"), ("id", Json.num 1)]) := by
  exact ⟨rfl, rfl, by decide⟩

/-- C5 amended: for dict bodies whose `jsonrpc` field equals `"2.0"`,
classification is purely syntactic on field presence exactly as the claim
lists it; all other bodies are `"invalid"`. -/
theorem c5_message_type_amended (body : Json) :
    ((getMessageType body = "request") ↔
      (jsonrpcIs20 body = true ∧ body.hasKey "method" = true ∧ body.hasKey "id" = true)) ∧
    ((getMessageType body = "notification") ↔
      (jsonrpcIs20 body = true ∧ body.hasKey "method" = true ∧ body.hasKey "id" = false)) ∧
    ((getMessageType body = "response") ↔
      (jsonrpcIs20 body = true ∧ body.hasKey "method" = false ∧
        (body.hasKey "result" = true ∨ body.hasKey "error" = true) ∧ body.hasKey "id" = true)) := by
  cases body with
  | obj fields =>
      cases hj : jsonrpcIs20 (Json.obj fields) with
      | false =>
          have hj' : (match Json.get? (Json.obj fields) "jsonrpc" with
              | some (Json.str s) => decide (s = "2.0")
              | _ => false) = false := hj
          simp [getMessageType, hj']
      | true =>
          have hj' : (match Json.get? (Json.obj fields) "jsonrpc" with
              | some (Json.str s) => decide (s = "2.0")
              | _ => false) = true := hj
          cases hm : (Json.obj fields).hasKey "method" <;>
            cases hi : (Json.obj fields).hasKey "id" <;>
              cases hr : (Json.obj fields).hasKey "result" <;>
                cases he : (Json.obj fields).hasKey "error" <;>
                  simp [getMessageType, hj', hm, hi, hr, he, hj]
  | null => simp [getMessageType, jsonrpcIs20, Json.get?, Json.hasKey]
  | bool b => simp [getMessageType, jsonrpcIs20, Json.get?, Json.hasKey]
  | num n => simp [getMessageType, jsonrpcIs20, Json.get?, Json.hasKey]
  | str s => simp [getMessageType, jsonrpcIs20, Json.get?, Json.hasKey]
  | arr es => simp [getMessageType, jsonrpcIs20, Json.get?, Json.hasKey]

/-- A session created 0 seconds ago whose `last_activity` lies 10000 seconds
in the past: fresh by creation age, stale by activity age. -/
def c1State : SMState :=
  { sessions := [("s", { createdAt := 10000, lastActivity := 0, isActive := true,
                         state := [], authInfo := [] })],
    maxAgeMinutes := 30 }

/-- C1 fails as stated: at `now = 10000` the session `"s"` of `c1State` has
last-activity age 10000 s > 1800 s, so the claim's validity predicate is
false, yet `validate_session` returns true — it never consults
`last_activity`. -/
theorem c1_counterexample :
    (validateSession c1State 10000 "s").1 = true ∧
    specSessionValid c1State 10000 "s" = false := by
  decide

/-- C1 amended: `validate_session(s)` returns true iff `s` is known, its
active flag is true and its creation age is at most `max_age` — the time
since last activity plays no role — and when the creation age exceeds
`max_age` it marks the session inactive, removes it from the table, and
returns false. -/
theorem c1_validate_session (st : SMState) (now : Nat) (sid : String) :
    ((validateSession st now sid).1 = true ↔
      ∃ s, lookupStr st.sessions sid = some s ∧ s.isActive = true ∧
        now - s.createdAt ≤ st.maxAgeMinutes * 60) ∧
    (∀ s, lookupStr st.sessions sid = some s →
      now - s.createdAt > st.maxAgeMinutes * 60 →
      (validateSession st now sid).1 = false ∧
        lookupStr (validateSession st now sid).2.sessions sid = none) := by
  constructor
  · cases hl : lookupStr st.sessions sid with
    | none => simp [validateSession, hl]
    | some s =>
        by_cases hexp : now - s.createdAt > st.maxAgeMinutes * 60
        · simp only [validateSession, hl, if_pos hexp]
          constructor
          · intro h; cases h
          · rintro ⟨s', hs', _, hage⟩
            cases hs'
            omega
        · simp only [validateSession, hl, if_neg hexp]
          constructor
          · intro h; exact ⟨s, rfl, h, by omega⟩
          · rintro ⟨s', hs', hact, _⟩
            cases hs'
            exact hact
  · intro s hl hexp
    simp only [validateSession, hl, if_pos hexp]
    exact ⟨by trivial, lookup_eraseSession _ _⟩

/-- Reduction of `executeSearchTool` on dict arguments when a tools instance
is configured. -/
theorem executeSearchTool_eq (parse : String → Option Json) (backend : Json → RawResult)
    (argFields : List (String × Json)) :
    executeSearchTool true parse backend (Json.obj argFields) =
      match searchInner parse (backend (queryArg (Json.obj argFields))) with
      | .ok v => .ok v
      | .error _ => .ok (mkResults []) := rfl

theorem optTruthy_of_emptyOrAbsent {fields : List (String × Json)} {k : String}
    (h : emptyOrAbsent fields k) : optTruthy (lookupStr fields k) = false := by
  rcases h with h | h <;> simp [h, optTruthy, Json.truthy]

theorem rawSeg_eq (o : Option Json) (h : ∀ v, o = some v → ∃ s, v = Json.str s) :
    (if optTruthy o then [o.getD Json.null] else []) = (specRawSeg o).map Json.str := by
  cases o with
  | none => rfl
  | some v =>
      obtain ⟨s, rfl⟩ := h v rfl
      by_cases hs : s = "" <;> simp [optTruthy, Json.truthy, specRawSeg, hs]

theorem preSeg_eq (pre : String) (o : Option Json)
    (h : ∀ v, o = some v → ∃ s, v = Json.str s) :
    (if optTruthy o then [Json.str (pre ++ pyStr (o.getD Json.null))] else []) =
      (specPreSeg pre o).map Json.str := by
  cases o with
  | none => rfl
  | some v =>
      obtain ⟨s, rfl⟩ := h v rfl
      by_cases hs : s = "" <;> simp [optTruthy, Json.truthy, specPreSeg, pyStr, hs]

theorem dictTextParts_eq (fields : List (String × Json))
    (hd : strOrAbsent fields "description") (hs : strOrAbsent fields "status_name")
    (hc : strOrAbsent fields "category_name") (ha : strOrAbsent fields "account_name") :
    dictTextParts fields = (specDictText fields).map Json.str := by
  unfold dictTextParts specDictText
  rw [rawSeg_eq _ hd, preSeg_eq _ _ hs, preSeg_eq _ _ hc, preSeg_eq _ _ ha]
  simp [List.map_append]

theorem listTextParts_eq (fields : List (String × Json))
    (hd : strOrAbsent fields "description") (hs : strOrAbsent fields "status_name") :
    listTextParts fields = (specListText fields).map Json.str := by
  unfold listTextParts specListText
  rw [rawSeg_eq _ hd, preSeg_eq _ _ hs]
  simp [List.map_append]

theorem dictSummaryText_eq (fields : List (String × Json))
    (hd : strOrAbsent fields "description") (hs : strOrAbsent fields "status_name")
    (hc : strOrAbsent fields "category_name") (ha : strOrAbsent fields "account_name") :
    dictSummaryText fields = Except.ok (specTextOf (specDictText fields) fields) := by
  unfold dictSummaryText specTextOf
  rw [dictTextParts_eq fields hd hs hc ha]
  cases hsp : specDictText fields with
  | nil => simp
  | cons a rest =>
      have hok : asPyStrs (Json.str a :: List.map Json.str rest) = Except.ok (a :: rest) := by
        rw [← List.map_cons, asPyStrs_map_str]
      simp [hok, Except.map]

theorem listSummaryText_eq (fields : List (String × Json))
    (hd : strOrAbsent fields "description") (hs : strOrAbsent fields "status_name") :
    listSummaryText fields = Except.ok (specTextOf (specListText fields) fields) := by
  unfold listSummaryText specTextOf
  rw [listTextParts_eq fields hd hs]
  cases hsp : specListText fields with
  | nil => simp
  | cons a rest =>
      have hok : asPyStrs (Json.str a :: List.map Json.str rest) = Except.ok (a :: rest) := by
        rw [← List.map_cons, asPyStrs_map_str]
      simp [hok, Except.map]

/-- A ticket object whose four text-relevant fields are absent or strings. -/
def ticketOk (t : Json) : Prop :=
  ∃ fields, t = Json.obj fields ∧ strOrAbsent fields "description" ∧
    strOrAbsent fields "status_name" ∧ strOrAbsent fields "category_name" ∧
    strOrAbsent fields "account_name"

theorem convertDictTicket_eq (t : Json) (h : ticketOk t) :
    convertDictTicket t = Except.ok (specDictEntry t) := by
  obtain ⟨fields, rfl, hd, hs, hc, ha⟩ := h
  simp [convertDictTicket, dictSummaryText_eq fields hd hs hc ha, specDictEntry, Except.map]

theorem convertListTickets_eq (ts : List Json) (h : ∀ t ∈ ts, ticketOk t) :
    convertListTickets ts = Except.ok (ts.map specListEntry) := by
  induction ts with
  | nil => rfl
  | cons t rest ih =>
      obtain ⟨fields, rfl, hd, hs, _, _⟩ := h t (by simp)
      rw [convertListTickets, listSummaryText_eq fields hd hs,
        ih (fun x hx => h x (by simp [hx]))]
      simp only [List.map_cons, specListEntry]
      rfl

/-- C7 fails as stated: `arguments.get("query", "")` sits outside the `try`,
so the non-dict arguments `null` — reachable via a `tools/call` of `search`
with `"arguments": null` — make the search tool raise `AttributeError`
instead of returning; the dispatcher converts the escaped exception into a
`-32603` internal error rather than `{"results": []}`. -/
theorem c7_counterexample :
    executeSearchTool true (fun _ => none) (fun _ => RawResult.pyNone) Json.null =
      Except.error (noGetMsg Json.null) ∧
    processMessage true (fun _ => none) (fun _ => RawResult.pyNone)
      (fun _ => RawResult.pyNone) "2025-01-01T00:00:00"
      (Json.obj [("jsonrpc", Json.str "2.0"), ("id", Json.num 7),
        ("method", Json.str "tools/call"),
        ("params", Json.obj [("name", Json.str "search"), ("arguments", Json.null)])]) "sess" =
      errorResponse (Json.num 7) (-32603) "Internal error" (some (noGetMsg Json.null)) :=
  ⟨rfl, rfl⟩

/-- C7 amended: for every dict `arguments` object, with a configured tools
instance, the search tool always returns — a raising backend, an unparseable
payload, or an empty/falsy result all yield `{"results": []}` instead of an
exception; only non-dict `arguments` raise (from the `arguments.get` outside
the `try`). -/
theorem c7_search_never_raises (parse : String → Option Json)
    (backend : Json → RawResult) (argFields : List (String × Json)) :
    (∃ out, executeSearchTool true parse backend (Json.obj argFields) = Except.ok out) ∧
    (backend (queryArg (Json.obj argFields)) = RawResult.raises →
      executeSearchTool true parse backend (Json.obj argFields) = Except.ok (mkResults [])) ∧
    (∀ s, backend (queryArg (Json.obj argFields)) = RawResult.pyStr s → parse s = none →
      executeSearchTool true parse backend (Json.obj argFields) = Except.ok (mkResults [])) ∧
    (rawTruthy (backend (queryArg (Json.obj argFields))) = false →
      executeSearchTool true parse backend (Json.obj argFields) = Except.ok (mkResults [])) := by
  rw [executeSearchTool_eq]
  refine ⟨?_, ?_, ?_, ?_⟩
  · cases h : searchInner parse (backend (queryArg (Json.obj argFields))) with
    | ok v => exact ⟨v, rfl⟩
    | error e => exact ⟨mkResults [], rfl⟩
  · intro h
    rw [h]
    rfl
  · intro s h hp
    rw [h]
    by_cases hs : s = "" <;> by_cases ht : stripTruthy s <;>
      simp [searchInner, hs, ht, hp]
  · intro h
    cases hb : backend (queryArg (Json.obj argFields)) with
    | raises => rfl
    | pyNone => rfl
    | pyStr s =>
        rw [hb] at h
        have hs : s = "" := by
          by_contra hne
          simp [rawTruthy, hne] at h
        simp [searchInner, hs]
    | pyVal j =>
        rw [hb] at h
        have hj : j.truthy = false := by simpa [rawTruthy] using h
        simp [searchInner, hj]

/-- Witness for C7's amended theorem at a raising backend and dict arguments. -/
theorem c7_search_never_raises_witness :
    executeSearchTool true (fun _ => none) (fun _ => RawResult.raises) (Json.obj []) =
      Except.ok (mkResults []) :=
  (c7_search_never_raises (fun _ => none) (fun _ => RawResult.raises) []).2.1 rfl

/-- C9: a dict-shape ticket whose `description`, `status_name`,
`category_name` and `account_name` are all empty or absent gets its `text`
set to the raw title (the empty string when the title is also absent), not to
an empty join. -/
theorem c9_title_fallback (parse : String → Option Json) (argFields : List (String × Json))
    (fields : List (String × Json))
    (hd : emptyOrAbsent fields "description") (hs : emptyOrAbsent fields "status_name")
    (hc : emptyOrAbsent fields "category_name") (ha : emptyOrAbsent fields "account_name") :
    executeSearchTool true parse
      (fun _ => RawResult.pyVal (Json.obj [("tickets", Json.arr [Json.obj fields])]))
      (Json.obj argFields) =
    Except.ok (mkResults [searchEntry fields ((lookupStr fields "title").getD (Json.str ""))]) := by
  rw [executeSearchTool_eq]
  have hparts : dictTextParts fields = [] := by
    unfold dictTextParts
    rw [optTruthy_of_emptyOrAbsent hd, optTruthy_of_emptyOrAbsent hs,
      optTruthy_of_emptyOrAbsent hc, optTruthy_of_emptyOrAbsent ha]
    rfl
  have hsum : dictSummaryText fields =
      Except.ok ((lookupStr fields "title").getD (Json.str "")) := by
    unfold dictSummaryText
    rw [hparts]
    rfl
  have hconv : convertDictTicket (Json.obj fields) =
      Except.ok (searchEntry fields ((lookupStr fields "title").getD (Json.str ""))) := by
    simp [convertDictTicket, hsum, Except.map]
  have hmap : List.mapM convertDictTicket [Json.obj fields] =
      Except.ok [searchEntry fields ((lookupStr fields "title").getD (Json.str ""))] :=
    mapM_ok_of_forall _ _
      (fun _ => searchEntry fields ((lookupStr fields "title").getD (Json.str "")))
      (by intro t ht; simp at ht; subst ht; exact hconv)
  have hiter : iterDictTickets (Json.arr [Json.obj fields]) =
      Except.ok [searchEntry fields ((lookupStr fields "title").getD (Json.str ""))] := hmap
  simp [searchInner, Json.truthy, convertTicketData, lookupStr, hiter, Except.map]

/-- Witness for C9: a ticket with empty/absent text fields and title `"T"`. -/
theorem c9_title_fallback_witness :
    executeSearchTool true (fun _ => none)
      (fun _ => RawResult.pyVal (Json.obj [("tickets",
        Json.arr [Json.obj [("title", Json.str "T"), ("description", Json.str "")]])])) (Json.obj []) =
    Except.ok (mkResults [searchEntry [("title", Json.str "T"), ("description", Json.str "")]
      ((lookupStr [("title", Json.str "T"), ("description", Json.str "")] "title").getD (Json.str ""))]) :=
  c9_title_fallback (fun _ => none) []
    [("title", Json.str "T"), ("description", Json.str "")]
    (Or.inr rfl) (Or.inl rfl) (Or.inl rfl) (Or.inl rfl)

/-- C2 fails as stated: for a top-level-list backend result the source joins
only `description` and `Status: ...`, dropping `Category:` and `Account:`.
A list-shape ticket with only `category_name`/`account_name` set gets `text`
`"T"` (the title fallback), while the claim's four-part join predicts
`"Category: Bug | Account: ACME"`. -/
theorem c2_counterexample :
    executeSearchTool true (fun _ => none)
      (fun _ => RawResult.pyVal (Json.arr [Json.obj [("title", Json.str "T"),
        ("category_name", Json.str "Bug"), ("account_name", Json.str "ACME")]])) (Json.obj []) =
      Except.ok (mkResults [Json.obj [("id", Json.str ""), ("title", Json.str "T"),
        ("text", Json.str "T"), ("url", Json.null)]]) ∧
    String.intercalate " | "
      (specDictText [("title", Json.str "T"), ("category_name", Json.str "Bug"),
        ("account_name", Json.str "ACME")]) = "Category: Bug | Account: ACME" ∧
    ("T" : String) ≠ "Category: Bug | Account: ACME" := by
  exact ⟨rfl, rfl, by decide⟩

/-- C2 amended: for a `{tickets:[...]}`-shaped backend result the `text` of
each ticket entry joins the non-empty entries among `description`,
`Status: ...`, `Category: ...`, `Account: ...` with `" | "` (falling back to
the title when all are empty); for a top-level-list result only `description`
and `Status: ...` are joined. -/
theorem c2_search_text (parse : String → Option Json) (argFields : List (String × Json))
    (ts : List Json) (hts : ∀ t ∈ ts, ticketOk t) :
    (executeSearchTool true parse
        (fun _ => RawResult.pyVal (Json.obj [("tickets", Json.arr ts)]))
        (Json.obj argFields) =
      Except.ok (mkResults (ts.map specDictEntry))) ∧
    (executeSearchTool true parse (fun _ => RawResult.pyVal (Json.arr ts))
        (Json.obj argFields) =
      Except.ok (mkResults (ts.map specListEntry))) := by
  constructor
  · rw [executeSearchTool_eq]
    have hmap : List.mapM convertDictTicket ts = Except.ok (ts.map specDictEntry) :=
      mapM_ok_of_forall ts _ specDictEntry (fun t ht => convertDictTicket_eq t (hts t ht))
    have hiter : iterDictTickets (Json.arr ts) = Except.ok (ts.map specDictEntry) := hmap
    simp [searchInner, Json.truthy, convertTicketData, lookupStr, hiter, Except.map]
  · rw [executeSearchTool_eq]
    cases ts with
    | nil => rfl
    | cons t rest =>
        have hconv : convertListTickets (t :: rest) =
            Except.ok ((t :: rest).map specListEntry) :=
          convertListTickets_eq _ hts
        simp [searchInner, Json.truthy, convertTicketData, hconv, Except.map]

/-- Witness for C2's amended theorem at the spec's S3 scenario ticket. -/
theorem c2_search_text_witness :
    executeSearchTool true (fun _ => none)
      (fun _ => RawResult.pyVal (Json.obj [("tickets", Json.arr [Json.obj
        [("id", Json.str "T1"), ("title", Json.str "Login error"),
         ("description", Json.str "Cannot log in"), ("status_name", Json.str "Open"),
         ("category_name", Json.str "Bug"), ("account_name", Json.str "ACME")]])]))
      (Json.obj [("query", Json.str "login")]) =
    Except.ok (mkResults ([Json.obj
        [("id", Json.str "T1"), ("title", Json.str "Login error"),
         ("description", Json.str "Cannot log in"), ("status_name", Json.str "Open"),
         ("category_name", Json.str "Bug"), ("account_name", Json.str "ACME")]].map specDictEntry)) :=
  (c2_search_text (fun _ => none) [("query", Json.str "login")] _
    (by
      intro t ht
      simp only [List.mem_singleton] at ht
      subst ht
      refine ⟨_, rfl, ?_, ?_, ?_, ?_⟩ <;>
        exact fun v h => by cases h; exact ⟨_, rfl⟩)).1

/-- C3 fails as stated: fetching the missing id `"MISSING"` produces the
`-32603` error whose `message` field is exactly `"Internal error"` — it does
not contain `"Failed to fetch ticket: MISSING"`; that text is carried by the
`data` field. -/
theorem c3_counterexample :
    ((processMessage true (fun _ => none) (fun _ => RawResult.pyNone)
        (fun _ => RawResult.pyNone) "2025-01-01T00:00:00"
        (fetchCallBody (Json.num 5) (Json.str "MISSING")) "sess").get? "error").bind
      (fun e => e.get? "message") = some (Json.str "Internal error") ∧
    strContains "Internal error" "Failed to fetch ticket: MISSING" = false ∧
    ((processMessage true (fun _ => none) (fun _ => RawResult.pyNone)
        (fun _ => RawResult.pyNone) "2025-01-01T00:00:00"
        (fetchCallBody (Json.num 5) (Json.str "MISSING")) "sess").get? "error").bind
      (fun e => e.get? "data") = some (Json.str "Failed to fetch ticket: MISSING") := by
  exact ⟨rfl, by decide, rfl⟩

/-- C3 amended: a `tools/call` of `fetch` whose ticket id is missing from the
backend (falsy or unparseable result) yields the JSON-RPC error `-32603`
whose `message` is `"Internal error"` and whose `data` field carries
`Failed to fetch ticket: <id>`. -/
theorem c3_fetch_not_found (parse : String → Option Json)
    (searchB fetchB : Json → RawResult) (nowIso sid : String) (mid tid : Json)
    (h : rawTruthy (fetchB tid) = false ∨
      ∃ s, fetchB tid = RawResult.pyStr s ∧ parse s = none) :
    processMessage true parse searchB fetchB nowIso (fetchCallBody mid tid) sid =
      errorResponse mid (-32603) "Internal error"
        (some ("Failed to fetch ticket: " ++ pyStr tid)) := by
  have hinner : fetchInner parse (fetchB tid) tid = Except.error () := by
    rcases h with h | ⟨s, hs, hp⟩
    · cases hb : fetchB tid with
      | raises => rfl
      | pyNone => rfl
      | pyStr s =>
          rw [hb] at h
          have hse : s = "" := by
            by_contra hne
            simp [rawTruthy, hne] at h
          simp [fetchInner, hse]
      | pyVal j =>
          rw [hb] at h
          have hj : j.truthy = false := by simpa [rawTruthy] using h
          simp [fetchInner, hj]
    · rw [hs]
      by_cases hse : s = "" <;> by_cases ht : stripTruthy s <;>
        simp [fetchInner, hse, ht, hp]
  simp [processMessage, fetchCallBody, Json.get?, lookupStr, handleMethodToolsCall,
    executeFetchTool, hinner, Except.map]

/-- Witness for C3's amended theorem at the spec's S4 scenario. -/
theorem c3_fetch_not_found_witness :
    processMessage true (fun _ => none) (fun _ => RawResult.pyNone)
      (fun _ => RawResult.pyNone) "2025-01-01T00:00:00"
      (fetchCallBody (Json.num 5) (Json.str "MISSING")) "sess" =
    errorResponse (Json.num 5) (-32603) "Internal error"
      (some ("Failed to fetch ticket: " ++ pyStr (Json.str "MISSING"))) :=
  c3_fetch_not_found (fun _ => none) (fun _ => RawResult.pyNone) (fun _ => RawResult.pyNone)
    "2025-01-01T00:00:00" "sess" (Json.num 5) (Json.str "MISSING") (Or.inl rfl)

/-- C4: a JSON-RPC notification or response POSTed with a valid
`Mcp-Session-Id` gets HTTP 202 with an empty body and the session id echoed
in the `Mcp-Session-Id` header. -/
theorem c4_notification_202 (process : Json → String → Json) (choices : Nat → Nat → Nat)
    (fuel now : Nat) (accept : String) (auth : Option String) (sid : String)
    (body : Json) (st : SMState)
    (hacc : strContains accept "application/json" = true)
    (hacc2 : strContains accept "text/event-stream" = true)
    (hmt : getMessageType body = "notification" ∨ getMessageType body = "response")
    (hsid : sid ≠ "")
    (hval : (validateSession st now sid).1 = true) :
    ∃ st', handlePost process choices fuel now accept auth (some sid) (Except.ok body) st =
      some (PostOutcome.resp { status := 202, content := none, sessionHeader := some sid } st') := by
  have hobj : ∃ fields, body = Json.obj fields := by
    cases body with
    | obj fields => exact ⟨fields, rfl⟩
    | null => rcases hmt with h | h <;> simp [getMessageType] at h
    | bool b => rcases hmt with h | h <;> simp [getMessageType] at h
    | num n => rcases hmt with h | h <;> simp [getMessageType] at h
    | str s => rcases hmt with h | h <;> simp [getMessageType] at h
    | arr es => rcases hmt with h | h <;> simp [getMessageType] at h
  obtain ⟨fields, rfl⟩ := hobj
  refine ⟨updateActivity (updateActivity (validateSession st now sid).2 now sid) now sid, ?_⟩
  rcases hmt with h | h <;>
    simp [handlePost, hacc, hacc2, h, hsid, hval]

/-- Witness for C4 at the S5 cancellation notification and a live session. -/
theorem c4_notification_202_witness :
    ∃ st', handlePost (fun _ _ => Json.null) (fun _ _ => 0) 1 10
        "application/json, text/event-stream" none (some "S")
        (Except.ok (Json.obj [("jsonrpc", Json.str "2.0"),
          ("method", Json.str "notifications/cancelled"),
          ("params", Json.obj [("requestId", Json.str "req-7"),
            ("reason", Json.str "user cancelled")])]))
        ⟨[("S", { createdAt := 0, lastActivity := 0, isActive := true,
                  state := [], authInfo := [] })], 30⟩ =
      some (PostOutcome.resp { status := 202, content := none, sessionHeader := some "S" } st') :=
  c4_notification_202 (fun _ _ => Json.null) (fun _ _ => 0) 1 10
    "application/json, text/event-stream" none "S" _ _
    (by decide) (by decide) (Or.inl rfl) (by decide) (by decide)

/-- Two equal outcome responses agree on status and error message; used to
discharge the non-rejection side of the Accept-negotiation claim. -/
theorem notAcceptMsg_of_eq {X r : HttpResponse} {st0 st' : SMState}
    (heq : some (PostOutcome.resp X st0) = some (PostOutcome.resp r st'))
    (hX : X.status ≠ 400 ∨ errMessage X ≠ some (Json.str
      "Invalid Accept header. Must include both application/json and text/event-stream")) :
    ¬(r.status = 400 ∧ errMessage r = some (Json.str
      "Invalid Accept header. Must include both application/json and text/event-stream")) := by
  have h1 : PostOutcome.resp X st0 = PostOutcome.resp r st' := by injection heq
  have h2 : X = r := by injection h1
  subst h2
  rcases hX with h | h
  · exact fun hc => h hc.1
  · exact fun hc => h hc.2

/-- C8: a POST whose `Accept` header lacks either required media type is
rejected with HTTP 400 and JSON-RPC `-32600` — uniformly in the body, the
session header and the session table, which is left untouched — and when both
media types are present no branch of the handler produces that rejection. -/
theorem c8_accept_negotiation (process : Json → String → Json) (choices : Nat → Nat → Nat)
    (fuel now : Nat) (accept : String) (auth sh : Option String)
    (bodyResult : Except String Json) (st : SMState) :
    ((strContains accept "application/json" = false ∨
        strContains accept "text/event-stream" = false) →
      handlePost process choices fuel now accept auth sh bodyResult st =
        some (PostOutcome.resp acceptRejection st)) ∧
    (strContains accept "application/json" = true →
      strContains accept "text/event-stream" = true →
      ∀ r st', handlePost process choices fuel now accept auth sh bodyResult st =
          some (PostOutcome.resp r st') →
        ¬(r.status = 400 ∧ errMessage r = some (Json.str
          "Invalid Accept header. Must include both application/json and text/event-stream"))) := by
  constructor
  · intro h
    rcases h with h | h <;> simp [handlePost, h]
  · intro ha hb r st' heq
    simp only [handlePost, ha, hb, Bool.and_self, Bool.not_true, Bool.false_eq_true,
      if_false] at heq
    repeat' split at heq
    all_goals try simp at heq
    all_goals
      obtain ⟨h1, -⟩ := heq
    all_goals
      subst h1
    all_goals
      simp [parseErrorResponse, batchRejection, missingSessionReq, invalidSessionReq,
        missingSessionNR, invalidSessionNR, invalidFormatResponse, errMessage,
        Json.get?, lookupStr]

/-- Witness for C8: the rejection at a JSON-only Accept header, and the
request path's non-rejection at a well-formed Accept header. -/
theorem c8_accept_negotiation_witness :
    handlePost (fun _ _ => Json.null) (fun _ _ => 0) 1 0 "application/json" none none
      (Except.ok Json.null) ⟨[], 30⟩ =
      some (PostOutcome.resp acceptRejection ⟨[], 30⟩) :=
  (c8_accept_negotiation (fun _ _ => Json.null) (fun _ _ => 0) 1 0 "application/json"
    none none (Except.ok Json.null) ⟨[], 30⟩).1 (Or.inr (by decide))

/-- Witness for C1's amended theorem: the iff at a live session and the
expiry branch at a stale one. -/
theorem c1_validate_session_witness :
    (validateSession c1State 10000 "s").1 = true ∧
    (validateSession c1State 1000000 "s").1 = false ∧
    lookupStr (validateSession c1State 1000000 "s").2.sessions "s" = none := by
  refine ⟨?_, ?_⟩
  · apply (c1_validate_session c1State 10000 "s").1.mpr
    refine ⟨{ createdAt := 10000, lastActivity := 0, isActive := true, state := [], authInfo := [] }, ?_, ?_, ?_⟩
    · rfl
    · rfl
    · decide
  · exact (c1_validate_session c1State 1000000 "s").2
      { createdAt := 10000, lastActivity := 0, isActive := true, state := [], authInfo := [] }
      rfl (by decide)

end McpModel
